import Mathlib

/-
  Verification development for the furniture shopping-assistant
  conversation engine: the per-thread conversation-state store, the
  new-search detector, the two-tier query reformulator, the follow-up
  resolver and the hybrid-agent orchestrator.

  Strings are embedded as lists of characters; every JavaScript string
  operation used by the code (toLowerCase, trim, includes, startsWith,
  split on whitespace, word-boundary regex replace, ordered-alternation
  leading-regex replace) is given an explicit executable model below.
-/

set_option maxHeartbeats 1000000
set_option maxRecDepth 100000

abbrev Str : Type := List Char

/-- Whitespace test used by the trim / split models. -/
def isWsC (c : Char) : Bool :=
  c == ' ' || c == '\t' || c == '\n' || c == '\r'

/-- Regex word-character class: letters, digits and underscore. -/
def wordChar (c : Char) : Bool :=
  c.isAlphanum || c == '_'

/-- Model of JavaScript String.toLowerCase for the ASCII inputs used here. -/
def lowerStr (s : Str) : Str :=
  s.map Char.toLower

/-- Model of JavaScript String.trim. -/
def trimWs (s : Str) : Str :=
  ((s.dropWhile isWsC).reverse.dropWhile isWsC).reverse

/-- Model of JavaScript String.startsWith: first argument as a leading part of the second. -/
def isPre : Str → Str → Bool
  | [], _ => true
  | _ :: _, [] => false
  | a :: as, b :: bs => a == b && isPre as bs

/-- Model of JavaScript String.includes: substring containment. -/
def substr (pat : Str) : Str → Bool
  | [] => isPre pat []
  | c :: rest => isPre pat (c :: rest) || substr pat rest

/-- Accumulator-based worker for splitting on whitespace runs. -/
def splitWsAux : Str → Str → List Str
  | [], cur => if cur = [] then [] else [cur.reverse]
  | c :: rest, cur =>
    if isWsC c then
      if cur = [] then splitWsAux rest [] else cur.reverse :: splitWsAux rest []
    else splitWsAux rest (c :: cur)

/-- Model of message.split(on whitespace) followed by dropping empty words. -/
def splitWs (s : Str) : List Str :=
  splitWsAux s []

/-- Collect the present values of a list of optional strings, keeping order. -/
def catOpts (l : List (Option Str)) : List Str :=
  l.filterMap id

/-- Join words with single spaces. -/
def joinSp : List Str → Str
  | [] => []
  | [w] => w
  | w :: ws => w ++ ' ' :: joinSp ws

/-- Left word-boundary test: position 0 or a non-word character before. -/
def boundL : Option Char → Bool
  | none => true
  | some c => !(wordChar c)

/-- Right word-boundary test: end of input or a non-word character next. -/
def boundR : Str → Bool
  | [] => true
  | c :: _ => !(wordChar c)

/-- Last character of a word, used as the previous-character context after a removal. -/
def lastCh (w : Str) : Char :=
  w.getLast?.getD ' '

/-- Fuel-driven worker for global word-boundary replacement by the empty string. -/
def rwaGo (w : Str) : Nat → Option Char → Str → Str
  | 0, _, s => s
  | Nat.succ fuel, prev, s =>
    if w ≠ [] && isPre w s && boundL prev && boundR (s.drop w.length) then
      rwaGo w fuel (some (lastCh w)) (s.drop w.length)
    else
      match s with
      | [] => []
      | c :: rest => c :: rwaGo w fuel (some c) rest

/-- Model of s.replace(word-boundary-delimited w, global) by the empty string. -/
def replaceWordAll (s w : Str) : Str :=
  rwaGo w (s.length + 1) none s

/-- Model of an anchored leading alternation regex replace: the first
alternative (in list order) that is a leading part of the string is removed
together with the whitespace run that follows it. -/
def stripLeadAlt (alts : List Str) (s : Str) : Str :=
  match alts.find? (fun a => isPre a s) with
  | some a => (s.drop a.length).dropWhile isWsC
  | none => s

/-- JavaScript truthiness fallback for strings: a || b with empty string falsy. -/
def jsOrS (a b : Str) : Str :=
  if a.isEmpty then b else a

/-- JavaScript truthiness fallback for optional strings: a || b. -/
def jsOrO (a : Option Str) (b : Str) : Str :=
  match a with
  | some s => if s.isEmpty then b else s
  | none => b

/-- Filler words ignored when counting meaningful words (QueryReformulator.ts). -/
def fillerWords : List Str :=
  ["saya", "mau", "yang", "ada", "adakah", "apa", "boleh", "bisa",
   "yang", "warna", "bahannya", "buat", "untuk", "beli", "cari",
   "i", "want", "would", "like", "the", "that", "this", "is", "are"].map String.toList

/-- New-search keywords tested as message leading parts (QueryReformulator.ts). -/
def rbNewSearchKeywords : List Str :=
  ["cari ", "cariin", "tampil", "show", "find", "looking for",
   "ada ", "adakah", "apa ada", "is there"].map String.toList

/-- Product-category lexicon of the rule-based reformulator (QueryReformulator.ts). -/
def rbCategories : List Str :=
  ["sofa", "meja", "kursi", "lemari", "rak", "buffet", "bed", "kasur",
   "couch", "table", "chair", "cabinet", "shelf", "coffee table"].map String.toList

/-- Color lexicon (QueryReformulator.ts). -/
def colorsLex : List Str :=
  ["putih", "white", "hitam", "black", "coklat", "brown", "merah", "red",
   "biru", "blue", "hijau", "green", "kuning", "yellow", "abu", "gray",
   "grey", "cream", "beige", "gold", "emas", "silver", "perak"].map String.toList

/-- Material lexicon (QueryReformulator.ts). -/
def materialsLex : List Str :=
  ["kayu", "wood", "kulit", "leather", "kain", "fabric", "besi", "metal",
   "rotan", "rattan", "plastik", "plastic", "kaca", "glass", "marmer",
   "marble", "velvet", "beludru", "linen", "katun", "canvas"].map String.toList

/-- Price-descriptor lexicon (QueryReformulator.ts). -/
def priceRefsLex : List Str :=
  ["murah", "cheap", "mahal", "expensive", "hemat", "economical",
   "terjangkau", "affordable"].map String.toList

/-- First ordered alternation of the leading filler-phrase strip (QueryReformulator.ts). -/
def fillerAlts1 : List Str :=
  ["saya mau", "saya cari", "cari", "mau", "beli", "tampil", "show", "find",
   "looking for", "i want", "i need", "adakah", "apa ada"].map String.toList

/-- Second ordered alternation of the leading filler-phrase strip (QueryReformulator.ts). -/
def fillerAlts2 : List Str :=
  ["yang", "yang warna", "yang bahannya", "warna", "bahannya"].map String.toList

/-- Category lexicon of the new-search detector (hybrid agent). -/
def nsCategories : List Str :=
  ["sofa", "settee", "couch",
   "meja", "table",
   "kursi", "chair",
   "lemari", "cabinet",
   "rak", "shelf",
   "buffet", "sideboard",
   "bed", "kasur", "mattress",
   "coffee table", "meja tamu", "meja kopi"].map String.toList

/-- New-search keyword phrases of the new-search detector (hybrid agent). -/
def nsKeywords : List Str :=
  ["cari meja", "cari kursi", "cari lemari", "cari rak", "cari bed",
   "find table", "find chair", "find cabinet",
   "show me", "tampilkan"].map String.toList

/-- Attribute lexicon of the new-search detector (hybrid agent). -/
def nsAttributes : List Str :=
  ["putih", "white", "hitam", "black", "coklat", "brown",
   "merah", "red", "biru", "blue", "hijau", "green",
   "kayu", "wood", "kulit", "leather", "kain", "fabric",
   "murah", "cheap", "mahal", "expensive"].map String.toList

/-- Message language as detected by intent extraction. -/
inductive Lang where
  | id
  | en
deriving DecidableEq

/-- Intent labels occurring in the hybrid agent. -/
inductive IntentKind where
  | search
  | filter_add
  | filter_clear
  | greeting
  | help
  | unknown
  | faq_info
  | product_info
deriving DecidableEq

/-- Role of a logged conversation message. -/
inductive Role where
  | user
  | assistant
deriving DecidableEq

/-- Search backend type of a search result. The source value none is rendered noSearch. -/
inductive SType where
  | vector
  | text
  | noSearch
deriving DecidableEq

/-- Product record; only identity matters for the verified properties, the
narrative fields of the source ProductItem are not read by any claim. -/
structure Product where
  pid : Nat
deriving DecidableEq

/-- Modelled from the spec: the per-thread filter map of ConversationState
(the ConversationState module itself is not among the provided sources);
keys are present only when set. -/
structure Filters where
  category : Option Str
  color : Option Str
  material : Option Str
  brand : Option Str
  priceMin : Option Nat
  priceMax : Option Nat
deriving DecidableEq

/-- Filter map with no key set. -/
def emptyFilters : Filters :=
  ⟨none, none, none, none, none, none⟩

/-- Modelled from the spec: the search episode of ConversationState. -/
structure SearchEp where
  query : Str
  baseQuery : Str
  results : List Product
  resultCount : Nat
  searchType : SType
deriving DecidableEq

/-- A logged conversation message. -/
structure ChatMsg where
  role : Role
  content : Str
deriving DecidableEq

/-- Modelled from the spec: per-thread ConversationState record
(the ConversationState module itself is not among the provided sources). -/
structure ConvState where
  language : Lang
  filters : Filters
  search : SearchEp
  lastIntent : Option IntentKind
  lastFaqTopic : Option Str
  messages : List ChatMsg
deriving DecidableEq

/-- Partial filter map carried by an extracted intent (IntentExtractor schema). -/
structure IntentFilters where
  category : Option Str
  color : Option Str
  material : Option Str
  brand : Option Str
  price_min : Option Nat
  price_max : Option Nat
deriving DecidableEq

/-- Extracted intent (IntentExtractor schema plus the faq_topic field the agent uses). -/
structure Intent where
  intent : IntentKind
  search_query : Option Str
  filters : Option IntentFilters
  language : Lang
  faq_topic : Option Str
deriving DecidableEq

/-- Attribute set detected by a reformulation (QueryReformulator.ts). -/
structure DetectedAttrs where
  category : Option Str
  color : Option Str
  material : Option Str
  price : Option Str
deriving DecidableEq

/-- Empty detected-attribute set. -/
def emptyAttrs : DetectedAttrs :=
  ⟨none, none, none, none⟩

/-- Reformulation result (QueryReformulator.ts). -/
structure ReformulatedQuery where
  query : Str
  isContinuation : Bool
  isNewSearch : Bool
  detectedAttributes : DetectedAttrs
deriving DecidableEq

/-- Reformulation context (QueryReformulator.ts). -/
structure ReformCtx where
  baseQuery : Str
  lastSearchQuery : Option Str
  activeFilters : Filters
  language : Lang
deriving DecidableEq

/-- Narrative pair produced by the response generator. -/
structure GeneratedResponse where
  intro : Str
  followUp : Str
deriving DecidableEq

/-- Context handed to the external response generator. -/
structure GenCtx where
  language : Lang
  hasProducts : Bool
  productCount : Nat
  products : List Product
  searchQuery : Option Str
  activeFilters : Option Filters
  intentTag : Str
  faqTopic : Option Str
deriving DecidableEq

/-- Response metadata (hybrid agent AgentResponse.meta). -/
structure Meta where
  hasProducts : Bool
  searchType : SType
  productCount : Nat
  intentTag : Str
  detectedLanguage : Lang
deriving DecidableEq

/-- Structured agent response (hybrid agent AgentResponse). -/
structure AgentResponse where
  intro : Str
  products : List Product
  followUp : Str
  meta : Meta
deriving DecidableEq

/-- Result of the external product-search service. -/
structure SearchResult where
  products : List Product
  count : Nat
  searchType : SType
deriving DecidableEq

/-- External collaborators of one message turn: the product-search service,
the tier-2 reformulation call (none models failure or timeout) and the
narrative response generator. -/
structure Oracles where
  search : Str → Filters → SearchResult
  llm : Option ReformulatedQuery
  gen : GenCtx → GeneratedResponse

/-- One observable outcome of processing a message: the response, the final
thread state, whether the search service was invoked and with which
reformulation result. -/
structure AgentOutcome where
  response : AgentResponse
  finalState : ConvState
  searchInvoked : Bool
  reformUsed : Option ReformulatedQuery
deriving DecidableEq

/-- Single-filter write payloads of the SET_FILTER command. -/
inductive FilterSet where
  | cat (v : Str)
  | col (v : Str)
  | mat (v : Str)
  | brd (v : Str)
  | pmin (v : Nat)
  | pmax (v : Nat)
deriving DecidableEq

/-- Modelled from the spec: the named update commands of the
ConversationStateStore contract. -/
inductive Cmd where
  | SET_LANGUAGE (v : Lang)
  | SET_FILTER (f : FilterSet)
  | CLEAR_FILTERS
  | SET_SEARCH (q : Str) (bq : Option Str) (res : List Product) (ty : SType)
  | SET_BASE_QUERY (v : Str)
  | SET_LAST_INTENT (i : IntentKind) (t : Option Str)
  | ADD_MESSAGE (r : Role) (c : Str)
deriving DecidableEq

/-- Modelled from the spec: each command is a pure reducer over the previous
state; SET_SEARCH stores the result list and sets resultCount to its length,
ADD_MESSAGE appends to the append-only log. -/
def applyCmd (st : ConvState) (c : Cmd) : ConvState :=
  match c with
  | .SET_LANGUAGE v => { st with language := v }
  | .SET_FILTER f =>
    match f with
    | .cat v => { st with filters := { st.filters with category := some v } }
    | .col v => { st with filters := { st.filters with color := some v } }
    | .mat v => { st with filters := { st.filters with material := some v } }
    | .brd v => { st with filters := { st.filters with brand := some v } }
    | .pmin v => { st with filters := { st.filters with priceMin := some v } }
    | .pmax v => { st with filters := { st.filters with priceMax := some v } }
  | .CLEAR_FILTERS => { st with filters := emptyFilters }
  | .SET_SEARCH q bq res ty =>
    { st with search :=
      { query := q
        baseQuery := match bq with | some b => b | none => st.search.baseQuery
        results := res
        resultCount := res.length
        searchType := ty } }
  | .SET_BASE_QUERY v => { st with search := { st.search with baseQuery := v } }
  | .SET_LAST_INTENT i t => { st with lastIntent := some i, lastFaqTopic := t }
  | .ADD_MESSAGE r c2 => { st with messages := st.messages ++ [⟨r, c2⟩] }

/-- Modelled from the spec: the default-populated state created lazily on a
thread's first message (empty filters and search episode). -/
def initState : ConvState :=
  { language := .en
    filters := emptyFilters
    search := { query := [], baseQuery := [], results := [], resultCount := 0, searchType := .noSearch }
    lastIntent := none
    lastFaqTopic := none
    messages := [] }

/-- Cleaned continuation query of the rule-based reformulator: the base query
with stale color, material and price-descriptor terms removed by global
word-boundary replacement (trimming after each removal), then the two leading
filler-phrase alternations stripped, then the newly detected attributes
appended in the order color, material, price (QueryReformulator.ts). -/
def rbContinuationQuery (baseL : Str) (mColor mMat mPrice : Option Str) : Str :=
  let c1 := colorsLex.foldl (fun acc c => trimWs (replaceWordAll acc c)) baseL
  let c2 := materialsLex.foldl (fun acc m => trimWs (replaceWordAll acc m)) c1
  let c3 := priceRefsLex.foldl (fun acc p => trimWs (replaceWordAll acc p)) c2
  let c4 := trimWs (stripLeadAlt fillerAlts2 (stripLeadAlt fillerAlts1 c3))
  let attrs := catOpts [mColor, mMat, mPrice]
  if attrs.length > 0 then trimWs (c4 ++ ' ' :: joinSp attrs) else c4

/-- Branches of ruleBasedReformulate after the different-category check
(QueryReformulator.ts): attribute continuation, first-ever query, or no
definite result (none, escalate to the LLM tier). -/
def rbAfterCategory (userMessage msg baseL : Str) (isNS : Bool) : Option ReformulatedQuery :=
  let mColor := colorsLex.find? (fun c => substr c msg)
  let mMat := materialsLex.find? (fun m => substr m msg)
  let mPrice := priceRefsLex.find? (fun p => substr p msg)
  let hasAttr := mColor.isSome || mMat.isSome || mPrice.isSome
  if hasAttr && !baseL.isEmpty && !isNS then
    let words := splitWs msg
    let meaningful := words.filter (fun w => !(fillerWords.contains w))
    if decide (meaningful.length ≤ 2)
        || words.all (fun w => fillerWords.contains w || colorsLex.contains w
              || materialsLex.contains w || priceRefsLex.contains w) then
      some { query := rbContinuationQuery baseL mColor mMat mPrice
             isContinuation := true
             isNewSearch := false
             detectedAttributes := ⟨none, mColor, mMat, mPrice⟩ }
    else if baseL.isEmpty then
      some { query := userMessage, isContinuation := false, isNewSearch := false
             detectedAttributes := emptyAttrs }
    else none
  else if baseL.isEmpty then
    some { query := userMessage, isContinuation := false, isNewSearch := false
           detectedAttributes := emptyAttrs }
  else none

/-- Tier-1 rule-based reformulation (QueryReformulator.ts ruleBasedReformulate):
none means no definite result, escalate to the LLM tier. -/
def ruleBasedReformulate (userMessage : Str) (ctx : ReformCtx) : Option ReformulatedQuery :=
  let msg := trimWs (lowerStr userMessage)
  let baseL := lowerStr ctx.baseQuery
  let isNS := rbNewSearchKeywords.any (fun kw => isPre kw msg)
  match rbCategories.find? (fun c => substr c msg) with
  | some cat =>
    if cat ≠ baseL then
      some { query := userMessage, isContinuation := false, isNewSearch := true
             detectedAttributes := ⟨some cat, none, none, none⟩ }
    else rbAfterCategory userMessage msg baseL isNS
  | none => rbAfterCategory userMessage msg baseL isNS

/-- Tier-2 reformulation (QueryReformulator.ts llmReformulate): the external
call either succeeds with a result or fails or times out (none), in which
case the raw message is returned unmodified with both flags false; the
function is total, so no error escapes this layer. -/
def llmReformulate (userMessage : Str) (outcome : Option ReformulatedQuery) : ReformulatedQuery :=
  match outcome with
  | some r => r
  | none =>
    { query := userMessage, isContinuation := false, isNewSearch := false
      detectedAttributes := emptyAttrs }

/-- Two-tier reformulation (QueryReformulator.ts reformulate): the rule-based
tier is authoritative when definite, otherwise the LLM tier decides. -/
def reformulateModel (userMessage : Str) (ctx : ReformCtx)
    (llm : Option ReformulatedQuery) : ReformulatedQuery :=
  match ruleBasedReformulate userMessage ctx with
  | some r => r
  | none => llmReformulate userMessage llm

/-- Intent-category rule of the new-search detector: a truthy extracted
category that differs from the lower-cased base query. -/
def intentCatDiffers (intent : Intent) (baseLow : Str) : Bool :=
  match intent.filters with
  | some f =>
    match f.category with
    | some c => !c.isEmpty && !(c == baseLow)
    | none => false
  | none => false

/-- New-search detector of the hybrid agent (detectNewSearch): the four checks
are evaluated in order, first match wins, defaulting to continuation. -/
def detectNewSearch (userMessage currentBase : Str) (intent : Intent) : Bool :=
  cond (nsCategories.any (fun c =>
          substr c (trimWs (lowerStr userMessage)) && !(substr c (lowerStr currentBase)))) true
    (cond (intentCatDiffers intent (lowerStr currentBase)) true
      (cond (nsKeywords.any (fun kw => substr kw (trimWs (lowerStr userMessage)))) true
        (cond (nsAttributes.any (fun a => substr a (trimWs (lowerStr userMessage)))) false
          false)))

/-- All characters are the letter a. -/
def allA : Str → Bool
  | [] => true
  | c :: r => c == 'a' && allA r

/-- One or more letters a. -/
def isAPlus (s : Str) : Bool :=
  match s with
  | [] => false
  | c :: r => c == 'a' && allA r

/-- The token iya with one or more trailing letters a. -/
def isIyaPlus (s : Str) : Bool :=
  match s with
  | c1 :: c2 :: rest => c1 == 'i' && c2 == 'y' && isAPlus rest
  | _ => false

/-- The token ya with one or more trailing letters a. -/
def isYaPlus (s : Str) : Bool :=
  match s with
  | c1 :: rest => c1 == 'y' && isAPlus rest
  | _ => false

/-- Fixed alternatives of the affirmative-token regex (hybrid agent). -/
def affirmativeExact : List Str :=
  ["yes", "ok", "oke", "okay", "mau", "boleh", "tentu", "sure", "please",
   "tolong", "ingin", "ingin tahu", "bisa", "dong"].map String.toList

/-- Model of the case-insensitive anchored affirmative-token regex of the
hybrid agent, applied to the trimmed message. -/
def isAffirmative (s : Str) : Bool :=
  let l := lowerStr s
  isIyaPlus l || isYaPlus l || affirmativeExact.contains l

/-- Follow-up resolver of the hybrid agent (STEP 2.5): a short affirmative
message with freshly classified intent unknown is re-resolved from the prior
turn's lastIntent, lastFaqTopic and result count. -/
def resolveFollowUp (query : Str) (intent : Intent) (state : ConvState) : Intent :=
  let t := trimWs query
  if isAffirmative t = true ∧ t.length < 20 ∧ intent.intent = .unknown then
    if state.lastIntent = some .faq_info ∧ state.lastFaqTopic = some ("location".toList) then
      { intent := .faq_info, search_query := none, filters := none
        language := intent.language, faq_topic := some ("hours".toList) }
    else if state.lastIntent = some .search ∧ state.search.resultCount > 0 then
      { intent := .product_info, search_query := none, filters := none
        language := intent.language, faq_topic := none }
    else if state.lastIntent = some .faq_info then
      { intent := .help, search_query := none, filters := none
        language := intent.language, faq_topic := none }
    else
      { intent := .help, search_query := none, filters := none
        language := intent.language, faq_topic := none }
  else intent

/-- Conditionally issue a SET_FILTER command for a truthy optional string value. -/
def setIfStr (st : ConvState) (v : Option Str) (mk : Str → FilterSet) : ConvState :=
  match v with
  | some s => if s.isEmpty then st else applyCmd st (.SET_FILTER (mk s))
  | none => st

/-- Conditionally issue a SET_FILTER command for a truthy (nonzero) optional number. -/
def setIfNat (st : ConvState) (v : Option Nat) (mk : Nat → FilterSet) : ConvState :=
  match v with
  | some n => if n = 0 then st else applyCmd st (.SET_FILTER (mk n))
  | none => st

/-- Filter-merge step of the hybrid agent (STEP 5): a filter_clear intent
first clears the whole map, then every truthy filter field of the intent is
written in the order category, color, material, brand, priceMin, priceMax. -/
def filterMergeStep (intent : Intent) (st : ConvState) : ConvState :=
  let st0 := if intent.intent = .filter_clear then applyCmd st .CLEAR_FILTERS else st
  match intent.filters with
  | none => st0
  | some f =>
    let s1 := setIfStr st0 f.category FilterSet.cat
    let s2 := setIfStr s1 f.color FilterSet.col
    let s3 := setIfStr s2 f.material FilterSet.mat
    let s4 := setIfStr s3 f.brand FilterSet.brd
    let s5 := setIfNat s4 f.price_min FilterSet.pmin
    setIfNat s5 f.price_max FilterSet.pmax

/-- String tag of an intent label, as it appears in response metadata. -/
def intentName : IntentKind → Str
  | .search => "search".toList
  | .filter_add => "filter_add".toList
  | .filter_clear => "filter_clear".toList
  | .greeting => "greeting".toList
  | .help => "help".toList
  | .unknown => "unknown".toList
  | .faq_info => "faq_info".toList
  | .product_info => "product_info".toList

/-- Fixed refusal text of the language gate (hybrid agent STEP 2.6). -/
def refusalIntro : Str :=
  "Sorry, I can only communicate in English. Please type your message in English and I\x27ll be happy to help you find the perfect furniture for your home! 🏠".toList

/-- Fixed follow-up text of the language gate. -/
def refusalFollowUp : Str :=
  "What are you looking for today?".toList

/-- Fixed follow-up text of the product_info branch. -/
def productInfoFollowUp : Str :=
  "Ada yang lain yang bisa saya bantu? 🛋️".toList

/-- Stand-in for the product-detail narrative assembled in the product_info
branch; the text is built from product description fields that no verified
property reads, so its assembly is not modelled. -/
def productInfoIntro : Str :=
  "(product detail text)".toList

/-- Special intents short-circuited before search (hybrid agent STEP 3). -/
def isSpecial (k : IntentKind) : Bool :=
  k = .greeting || k = .help || k = .faq_info || k = .product_info

/-- Terminal outcome of the language gate: fixed refusal, no products, the
user message still logged, search never invoked. -/
def langGateOutcome (msg : Str) (lang : Lang) (st1 : ConvState) : AgentOutcome :=
  { response :=
      { intro := refusalIntro
        products := []
        followUp := refusalFollowUp
        meta := { hasProducts := false, searchType := .noSearch, productCount := 0
                  intentTag := "language_unsupported".toList, detectedLanguage := lang } }
    finalState := applyCmd st1 (.ADD_MESSAGE .user msg)
    searchInvoked := false
    reformUsed := none }

/-- Special-intent handling (hybrid agent STEP 3): product_info with stored
results re-surfaces the top three previous products; every other special
intent answers through the response generator with zero products. In both
cases the last intent is recorded and the user message logged, and search is
never invoked. -/
def specialOutcome (O : Oracles) (msg : Str) (r : Intent) (st1 : ConvState) : AgentOutcome :=
  if r.intent = .product_info ∧ st1.search.results ≠ [] then
    let st2 := applyCmd st1 (.SET_LAST_INTENT .product_info none)
    let st3 := applyCmd st2 (.ADD_MESSAGE .user msg)
    { response :=
        { intro := productInfoIntro
          products := st1.search.results.take 3
          followUp := productInfoFollowUp
          meta := { hasProducts := true, searchType := .noSearch
                    productCount := st1.search.results.length
                    intentTag := intentName r.intent, detectedLanguage := r.language } }
      finalState := st3
      searchInvoked := false
      reformUsed := none }
  else
    let g := O.gen { language := r.language, hasProducts := false, productCount := 0
                     products := [], searchQuery := none, activeFilters := none
                     intentTag := intentName r.intent, faqTopic := r.faq_topic }
    let st2 := applyCmd st1 (.SET_LAST_INTENT r.intent r.faq_topic)
    let st3 := applyCmd st2 (.ADD_MESSAGE .user msg)
    { response :=
        { intro := g.intro
          products := []
          followUp := g.followUp
          meta := { hasProducts := false, searchType := .noSearch, productCount := 0
                    intentTag := intentName r.intent, detectedLanguage := r.language } }
      finalState := st3
      searchInvoked := false
      reformUsed := none }

/-- Search path of the hybrid agent (STEPS 4 to 7): base-query determination,
new-search check, reformulation, filter merge, search dispatch, state update
and response assembly. -/
def searchPipeline (O : Oracles) (msg : Str) (r : Intent) (st1 : ConvState) : AgentOutcome :=
  let currentBase := jsOrS st1.search.baseQuery (jsOrO r.search_query msg)
  let isNS := detectNewSearch msg currentBase r
  let rqSt :=
    if isNS then
      let v := jsOrO r.search_query msg
      (({ query := v, isContinuation := false, isNewSearch := true
          detectedAttributes := emptyAttrs } : ReformulatedQuery),
       applyCmd st1 (.SET_BASE_QUERY v))
    else if !st1.search.baseQuery.isEmpty then
      (reformulateModel msg
        { baseQuery := st1.search.baseQuery
          lastSearchQuery := some st1.search.query
          activeFilters := st1.filters
          language := r.language } O.llm,
       st1)
    else
      let v := jsOrO r.search_query msg
      (({ query := v, isContinuation := false, isNewSearch := false
          detectedAttributes := emptyAttrs } : ReformulatedQuery),
       applyCmd st1 (.SET_BASE_QUERY v))
  let rq := rqSt.1
  let st3 := filterMergeStep r rqSt.2
  let sres := O.search rq.query st3.filters
  let st4 := applyCmd st3 (.SET_SEARCH rq.query (some st3.search.baseQuery) sres.products sres.searchType)
  let st5 := applyCmd st4 (.SET_LAST_INTENT .search none)
  let st6 := applyCmd st5 (.ADD_MESSAGE .user msg)
  let g := O.gen { language := r.language, hasProducts := decide (sres.count > 0)
                   productCount := sres.count, products := sres.products
                   searchQuery := some rq.query, activeFilters := some st3.filters
                   intentTag := intentName r.intent, faqTopic := none }
  { response :=
      { intro := g.intro
        products := sres.products
        followUp := g.followUp
        meta := { hasProducts := decide (sres.count > 0), searchType := sres.searchType
                  productCount := sres.count, intentTag := intentName r.intent
                  detectedLanguage := r.language } }
    finalState := st6
    searchInvoked := true
    reformUsed := some rq }

/-- One message turn of the hybrid agent (callAgent of the canonical
orchestrator variant), with the external collaborators supplied as oracles:
follow-up resolution, language recording, language gate, special-intent
short-circuit, then the search pipeline. -/
def callAgentModel (O : Oracles) (msg : Str) (intent0 : Intent) (st0 : ConvState) : AgentOutcome :=
  let r := resolveFollowUp msg intent0 st0
  let st1 := applyCmd st0 (.SET_LANGUAGE r.language)
  if r.language = .id then langGateOutcome msg r.language st1
  else if isSpecial r.intent then specialOutcome O msg r st1
  else searchPipeline O msg r st1

/-- Worded from the claim, for comparison with the code: strip every known
color, material and price-descriptor lexicon term from the base query. -/
def specStripAttrTerms (b : Str) : Str :=
  (colorsLex ++ materialsLex ++ priceRefsLex).foldl
    (fun acc t => trimWs (replaceWordAll acc t)) b

/-- Worded from the claim, for comparison with the code: strip the leading
filler phrases from the cleaned base query. -/
def specStripLeadingFillers (s : Str) : Str :=
  trimWs (stripLeadAlt fillerAlts2 (stripLeadAlt fillerAlts1 s))

/-- Worded from the claim, for comparison with the code: this turn's newly
detected attributes in the fixed order category, color, material, price; the
category slot is never filled on the continuation path. -/
def specNewAttrs (mColor mMat mPrice : Option Str) : List Str :=
  catOpts [(none : Option Str), mColor, mMat, mPrice]

/-- Worded from the claim, for comparison with the code: the tier-1
continuation query is the cleaned lower-cased base followed by the newly
detected attributes joined by single spaces. -/
def specTier1Query (baseL : Str) (mColor mMat mPrice : Option Str) : Str :=
  trimWs (specStripLeadingFillers (specStripAttrTerms baseL)
    ++ ' ' :: joinSp (specNewAttrs mColor mMat mPrice))

/-- Worded from the claim, for comparison with the code: a category lexicon
term occurs in the message but not in the lower-cased base query. -/
def specNS1 (userMessage currentBase : Str) : Bool :=
  nsCategories.any (fun c =>
    substr c (trimWs (lowerStr userMessage)) && !(substr c (lowerStr currentBase)))

/-- Worded from the claim, for comparison with the code: the extracted intent
carries a category that differs from the lower-cased base query. -/
def specNS2 (intent : Intent) (currentBase : Str) : Bool :=
  intentCatDiffers intent (lowerStr currentBase)

/-- Worded from the claim, for comparison with the code: the message contains
an explicit new-search trigger phrase. -/
def specNS3 (userMessage : Str) : Bool :=
  nsKeywords.any (fun kw => substr kw (trimWs (lowerStr userMessage)))

/-- Keys of the filter map. -/
inductive FKey where
  | category
  | color
  | material
  | brand
  | priceMin
  | priceMax
deriving DecidableEq

/-- A filter value: a string-valued or a numeric-valued constraint. -/
abbrev FVal : Type := Str ⊕ Nat

/-- Read one key of the filter map. -/
def getF (f : Filters) : FKey → Option FVal
  | .category => f.category.map Sum.inl
  | .color => f.color.map Sum.inl
  | .material => f.material.map Sum.inl
  | .brand => f.brand.map Sum.inl
  | .priceMin => f.priceMin.map Sum.inr
  | .priceMax => f.priceMax.map Sum.inr

/-- Key written by a SET_FILTER payload. -/
def fsKey : FilterSet → FKey
  | .cat _ => .category
  | .col _ => .color
  | .mat _ => .material
  | .brd _ => .brand
  | .pmin _ => .priceMin
  | .pmax _ => .priceMax

/-- Value written by a SET_FILTER payload. -/
def fsVal : FilterSet → FVal
  | .cat v => .inl v
  | .col v => .inl v
  | .mat v => .inl v
  | .brd v => .inl v
  | .pmin v => .inr v
  | .pmax v => .inr v

/-- The truthy filter value an intent provides for a key, if any: empty
strings and zero prices are falsy and provide nothing. -/
def intentFVal (intent : Intent) (k : FKey) : Option FVal :=
  match intent.filters with
  | none => none
  | some f =>
    match k with
    | .category => match f.category with
      | some c => if c.isEmpty then none else some (.inl c)
      | none => none
    | .color => match f.color with
      | some c => if c.isEmpty then none else some (.inl c)
      | none => none
    | .material => match f.material with
      | some c => if c.isEmpty then none else some (.inl c)
      | none => none
    | .brand => match f.brand with
      | some c => if c.isEmpty then none else some (.inl c)
      | none => none
    | .priceMin => match f.price_min with
      | some n => if n = 0 then none else some (.inr n)
      | none => none
    | .priceMax => match f.price_max with
      | some n => if n = 0 then none else some (.inr n)
      | none => none

/-- Run a command sequence from the default state of a fresh thread. -/
def runCmds (cmds : List Cmd) : ConvState :=
  cmds.foldl applyCmd initState

/-- The search invariant: the stored result count equals the stored result list length. -/
def searchCountInv (st : ConvState) : Prop :=
  st.search.resultCount = st.search.results.length

lemma applyCmd_searchCountInv (st : ConvState) (c : Cmd) (h : searchCountInv st) :
    searchCountInv (applyCmd st c) := by
  cases c with
  | SET_FILTER f => cases f <;> exact h
  | SET_SEARCH q bq res ty => simp [applyCmd, searchCountInv]
  | _ => exact h

lemma foldl_searchCountInv (cmds : List Cmd) :
    ∀ st : ConvState, searchCountInv st → searchCountInv (cmds.foldl applyCmd st) := by
  induction cmds with
  | nil => intro st h; exact h
  | cons c rest ih => intro st h; exact ih (applyCmd st c) (applyCmd_searchCountInv st c h)

lemma condCascade (b1 b2 b3 b4 : Bool) :
    cond b1 true (cond b2 true (cond b3 true (cond b4 false false))) = (b1 || b2 || b3) := by
  cases b1 <;> cases b2 <;> cases b3 <;> cases b4 <;> rfl

lemma detectNewSearch_cascade (userMessage currentBase : Str) (intent : Intent) :
    detectNewSearch userMessage currentBase intent
      = (specNS1 userMessage currentBase || specNS2 intent currentBase || specNS3 userMessage) := by
  unfold detectNewSearch specNS1 specNS2 specNS3
  exact condCascade _ _ _ _

/-- C5: for every sequence of state-store commands run from the default
state, the stored result count equals the length of the stored result list;
in particular this holds after every SET_SEARCH update. -/
theorem C5_resultCount_invariant (cmds : List Cmd) :
    (runCmds cmds).search.resultCount = (runCmds cmds).search.results.length :=
  foldl_searchCountInv cmds initState rfl

/-- C2: the new-search detector equals the first-match-wins cascade the claim
describes; a differing category term, a differing extracted category or an
explicit trigger phrase yield true, and every other message (in particular
one containing an attribute-lexicon term) yields false. -/
theorem C2_detectNewSearch_cascade (userMessage currentBase : Str) (intent : Intent) :
    detectNewSearch userMessage currentBase intent
      = (specNS1 userMessage currentBase || specNS2 intent currentBase || specNS3 userMessage) :=
  detectNewSearch_cascade userMessage currentBase intent

/-- C7: whenever the rule-based tier is inconclusive and the tier-2 external
call fails or times out (outcome none), reformulation returns the raw message
unmodified with both flags false and no detected attributes; the model is a
total function, so no error escapes this layer. -/
theorem C7_llm_fallback (userMessage : Str) (ctx : ReformCtx)
    (h : ruleBasedReformulate userMessage ctx = none) :
    reformulateModel userMessage ctx none =
      { query := userMessage, isContinuation := false, isNewSearch := false
        detectedAttributes := emptyAttrs } := by
  simp [reformulateModel, h, llmReformulate]

theorem C7_llm_fallback_witness :
    ruleBasedReformulate ("hello there".toList)
      { baseQuery := "sofa".toList, lastSearchQuery := none
        activeFilters := emptyFilters, language := .en } = none
    ∧ reformulateModel ("hello there".toList)
        { baseQuery := "sofa".toList, lastSearchQuery := none
          activeFilters := emptyFilters, language := .en } none =
      { query := "hello there".toList, isContinuation := false, isNewSearch := false
        detectedAttributes := emptyAttrs } :=
  ⟨by decide, C7_llm_fallback ("hello there".toList) _ (by decide)⟩

theorem C9_counterexample :
    ruleBasedReformulate ("sofa".toList)
      { baseQuery := [], lastSearchQuery := none
        activeFilters := emptyFilters, language := .en }
      = some { query := "sofa".toList, isContinuation := false, isNewSearch := true
               detectedAttributes := ⟨some ("sofa".toList), none, none, none⟩ }
    ∧ ¬ ((ruleBasedReformulate ("sofa".toList)
        { baseQuery := [], lastSearchQuery := none
          activeFilters := emptyFilters, language := .en }).map
          ReformulatedQuery.isNewSearch = some false) := by
  constructor
  · decide
  · decide

/-- C9 (amended): with an empty base query, tier-1 reformulation returns the
raw message with both flags false provided the message mentions no category
lexicon term; a category mention is classified as a new search first. -/
theorem C9_empty_base (userMessage : Str) (ctx : ReformCtx)
    (hbase : lowerStr ctx.baseQuery = [])
    (hcat : rbCategories.find? (fun c => substr c (trimWs (lowerStr userMessage))) = none) :
    ruleBasedReformulate userMessage ctx =
      some { query := userMessage, isContinuation := false, isNewSearch := false
             detectedAttributes := emptyAttrs } := by
  simp only [ruleBasedReformulate, hcat, hbase, rbAfterCategory, List.isEmpty_nil,
    Bool.not_true, Bool.and_false, Bool.false_and, Bool.and_self, if_false]
  simp

theorem C9_empty_base_witness :
    lowerStr ([] : Str) = []
    ∧ ruleBasedReformulate ("putih".toList)
        { baseQuery := [], lastSearchQuery := none
          activeFilters := emptyFilters, language := .en }
      = some { query := "putih".toList, isContinuation := false, isNewSearch := false
               detectedAttributes := emptyAttrs } :=
  ⟨by decide, C9_empty_base ("putih".toList) _ (by decide) (by decide)⟩

/-- Trivial collaborators used by concrete evaluations: searches find
nothing, the tier-2 call fails, the generator returns empty narratives. -/
def O0 : Oracles :=
  { search := fun _ _ => { products := [], count := 0, searchType := .noSearch }
    llm := none
    gen := fun _ => { intro := [], followUp := [] } }

/-- C8: a message whose resolved language is unsupported terminates at the
language gate with the fixed refusal response and zero products, the search
service is never invoked, and the user message is still appended to the
message log; the gate returns a normal response. -/
theorem C8_language_gate (O : Oracles) (msg : Str) (intent0 : Intent) (st0 : ConvState)
    (h : (resolveFollowUp msg intent0 st0).language = .id) :
    (callAgentModel O msg intent0 st0).response =
      { intro := refusalIntro, products := [], followUp := refusalFollowUp
        meta := { hasProducts := false, searchType := .noSearch, productCount := 0
                  intentTag := "language_unsupported".toList, detectedLanguage := .id } }
    ∧ (callAgentModel O msg intent0 st0).searchInvoked = false
    ∧ (callAgentModel O msg intent0 st0).finalState.messages
        = st0.messages ++ [⟨.user, msg⟩] := by
  simp [callAgentModel, h, langGateOutcome, applyCmd]

theorem C8_language_gate_witness :
    (resolveFollowUp ("halo".toList)
        { intent := .search, search_query := none, filters := none
          language := .id, faq_topic := none } initState).language = .id
    ∧ (callAgentModel O0 ("halo".toList)
        { intent := .search, search_query := none, filters := none
          language := .id, faq_topic := none } initState).response =
      { intro := refusalIntro, products := [], followUp := refusalFollowUp
        meta := { hasProducts := false, searchType := .noSearch, productCount := 0
                  intentTag := "language_unsupported".toList, detectedLanguage := .id } }
    ∧ (callAgentModel O0 ("halo".toList)
        { intent := .search, search_query := none, filters := none
          language := .id, faq_topic := none } initState).searchInvoked = false :=
  ⟨by decide, (C8_language_gate O0 ("halo".toList) _ initState (by decide)).1,
    (C8_language_gate O0 ("halo".toList) _ initState (by decide)).2.1⟩

/-- C10: a message resolved to the special intent greeting or help answers
with zero products and without invoking search, and the only state changes
are the recorded language, the recorded last intent (with its FAQ sub-topic)
and the appended user message: the filter map and the whole search episode
are unchanged. -/
theorem C10_special_intent_frame (O : Oracles) (msg : Str) (intent0 : Intent) (st0 : ConvState)
    (hl : (resolveFollowUp msg intent0 st0).language = .en)
    (hk : (resolveFollowUp msg intent0 st0).intent = .greeting
        ∨ (resolveFollowUp msg intent0 st0).intent = .help) :
    (callAgentModel O msg intent0 st0).response.products = []
    ∧ (callAgentModel O msg intent0 st0).searchInvoked = false
    ∧ (callAgentModel O msg intent0 st0).finalState.filters = st0.filters
    ∧ (callAgentModel O msg intent0 st0).finalState.search = st0.search
    ∧ (callAgentModel O msg intent0 st0).finalState.messages
        = st0.messages ++ [⟨.user, msg⟩]
    ∧ (callAgentModel O msg intent0 st0).finalState.language
        = (resolveFollowUp msg intent0 st0).language
    ∧ (callAgentModel O msg intent0 st0).finalState.lastIntent
        = some (resolveFollowUp msg intent0 st0).intent
    ∧ (callAgentModel O msg intent0 st0).finalState.lastFaqTopic
        = (resolveFollowUp msg intent0 st0).faq_topic := by
  rcases hk with hk | hk <;>
    simp [callAgentModel, hl, hk, isSpecial, specialOutcome, applyCmd]

theorem C10_special_intent_frame_witness :
    (resolveFollowUp ("hi".toList)
        { intent := .greeting, search_query := none, filters := none
          language := .en, faq_topic := none } initState).intent = .greeting
    ∧ (callAgentModel O0 ("hi".toList)
        { intent := .greeting, search_query := none, filters := none
          language := .en, faq_topic := none } initState).response.products = []
    ∧ (callAgentModel O0 ("hi".toList)
        { intent := .greeting, search_query := none, filters := none
          language := .en, faq_topic := none } initState).searchInvoked = false :=
  ⟨by decide,
    (C10_special_intent_frame O0 ("hi".toList) _ initState (by decide) (Or.inl (by decide))).1,
    (C10_special_intent_frame O0 ("hi".toList) _ initState (by decide) (Or.inl (by decide))).2.1⟩

lemma setIfStr_search (st : ConvState) (v : Option Str) (mk : Str → FilterSet) :
    (setIfStr st v mk).search = st.search := by
  cases v with
  | none => rfl
  | some x =>
    simp only [setIfStr]
    split
    · rfl
    · cases mk x <;> rfl

lemma setIfNat_search (st : ConvState) (v : Option Nat) (mk : Nat → FilterSet) :
    (setIfNat st v mk).search = st.search := by
  cases v with
  | none => rfl
  | some x =>
    simp only [setIfNat]
    split
    · rfl
    · cases mk x <;> rfl

lemma filterMergeStep_search (intent : Intent) (st : ConvState) :
    (filterMergeStep intent st).search = st.search := by
  unfold filterMergeStep
  cases hf : intent.filters with
  | none =>
    by_cases hcl : intent.intent = .filter_clear <;> simp [hcl, applyCmd]
  | some f =>
    simp only [setIfNat_search, setIfStr_search]
    by_cases hcl : intent.intent = .filter_clear <;> simp [hcl, applyCmd]

theorem C3_counterexample :
    (callAgentModel O0 ("ada meja kayu".toList)
      { intent := .search, search_query := some ("meja kayu".toList), filters := none
        language := .en, faq_topic := none }
      { initState with search := { initState.search with baseQuery := "sofa".toList } }).reformUsed
      = some { query := "meja kayu".toList, isContinuation := false, isNewSearch := true
               detectedAttributes := emptyAttrs }
    ∧ ("meja kayu".toList : Str) ≠ ("ada meja kayu".toList : Str) := by
  constructor
  · decide
  · decide

/-- C3 (amended): a message mentioning a category lexicon term absent from
the lower-cased current base query makes the new-search check return true;
the orchestrator then resets the stored base query to the intent's extracted
search_query when that is nonempty and to the raw message otherwise, and the
same value is used as the reformulated query for search, flagged
isNewSearch = true and isContinuation = false. -/
theorem C3_new_search_reset (O : Oracles) (msg : Str) (intent0 : Intent) (st0 : ConvState)
    (hl : (resolveFollowUp msg intent0 st0).language = .en)
    (hs : isSpecial (resolveFollowUp msg intent0 st0).intent = false)
    (h1 : specNS1 msg
        (jsOrS st0.search.baseQuery
          (jsOrO (resolveFollowUp msg intent0 st0).search_query msg)) = true) :
    detectNewSearch msg
        (jsOrS st0.search.baseQuery
          (jsOrO (resolveFollowUp msg intent0 st0).search_query msg))
        (resolveFollowUp msg intent0 st0) = true
    ∧ (callAgentModel O msg intent0 st0).reformUsed =
        some { query := jsOrO (resolveFollowUp msg intent0 st0).search_query msg
               isContinuation := false, isNewSearch := true
               detectedAttributes := emptyAttrs }
    ∧ (callAgentModel O msg intent0 st0).finalState.search.baseQuery
        = jsOrO (resolveFollowUp msg intent0 st0).search_query msg
    ∧ (callAgentModel O msg intent0 st0).searchInvoked = true := by
  have hdet : detectNewSearch msg
      (jsOrS st0.search.baseQuery
        (jsOrO (resolveFollowUp msg intent0 st0).search_query msg))
      (resolveFollowUp msg intent0 st0) = true := by
    rw [detectNewSearch_cascade, h1]
    simp
  refine ⟨hdet, ?_⟩
  simp [callAgentModel, hl, hs, searchPipeline, applyCmd, hdet, filterMergeStep_search]

theorem C3_new_search_reset_witness :
    specNS1 ("ada meja kayu".toList)
      (jsOrS ("sofa".toList)
        (jsOrO (resolveFollowUp ("ada meja kayu".toList)
            { intent := .search, search_query := none, filters := none
              language := .en, faq_topic := none }
            { initState with search := { initState.search with baseQuery := "sofa".toList } }).search_query
          ("ada meja kayu".toList))) = true
    ∧ (callAgentModel O0 ("ada meja kayu".toList)
        { intent := .search, search_query := none, filters := none
          language := .en, faq_topic := none }
        { initState with search := { initState.search with baseQuery := "sofa".toList } }).reformUsed =
      some { query := "ada meja kayu".toList, isContinuation := false, isNewSearch := true
             detectedAttributes := emptyAttrs } :=
  ⟨by decide,
    ((C3_new_search_reset O0 ("ada meja kayu".toList)
        { intent := .search, search_query := none, filters := none
          language := .en, faq_topic := none }
        { initState with search := { initState.search with baseQuery := "sofa".toList } }
        (by decide) (by decide) (by decide)).2.1).trans (by decide)⟩

/-- C4: follow-up resolution changes the freshly classified intent only when
the trimmed message matches the affirmative-token regex and that intent is
unknown; and when it triggers on a short affirmative after a search that
stored results, the resolved intent is product_info and the response reuses
the top three stored products without invoking the search service. -/
theorem C4_followUp_resolution :
    (∀ (msg : Str) (intent0 : Intent) (st0 : ConvState),
        resolveFollowUp msg intent0 st0 ≠ intent0 →
        isAffirmative (trimWs msg) = true ∧ intent0.intent = .unknown)
    ∧ (∀ (O : Oracles) (msg : Str) (intent0 : Intent) (st0 : ConvState),
        isAffirmative (trimWs msg) = true → (trimWs msg).length < 20 →
        intent0.intent = .unknown → intent0.language = .en →
        st0.lastIntent = some .search → st0.search.resultCount > 0 →
        st0.search.results ≠ [] →
        (resolveFollowUp msg intent0 st0).intent = .product_info
        ∧ (callAgentModel O msg intent0 st0).response.products = st0.search.results.take 3
        ∧ (callAgentModel O msg intent0 st0).searchInvoked = false) := by
  constructor
  · intro msg intent0 st0 hne
    unfold resolveFollowUp at hne
    by_cases hcond : isAffirmative (trimWs msg) = true
        ∧ (trimWs msg).length < 20 ∧ intent0.intent = .unknown
    · exact ⟨hcond.1, hcond.2.2⟩
    · rw [if_neg hcond] at hne
      exact absurd rfl hne
  · intro O msg intent0 st0 ha hlen hu hlang hli hrc hres
    have hr : resolveFollowUp msg intent0 st0 =
        { intent := .product_info, search_query := none, filters := none
          language := intent0.language, faq_topic := none } := by
      unfold resolveFollowUp
      rw [if_pos ⟨ha, hlen, hu⟩, if_neg (by simp [hli]), if_pos ⟨hli, hrc⟩]
    refine ⟨by rw [hr], ?_, ?_⟩ <;>
      simp [callAgentModel, hr, hlang, isSpecial, specialOutcome, applyCmd, hres]

theorem C4_followUp_resolution_witness :
    isAffirmative (trimWs ("iya".toList)) = true
    ∧ (callAgentModel O0 ("iya".toList)
        { intent := .unknown, search_query := none, filters := none
          language := .en, faq_topic := none }
        { initState with
            lastIntent := some .search
            search := { query := "sofa".toList, baseQuery := "sofa".toList
                        results := [⟨1⟩, ⟨2⟩, ⟨3⟩], resultCount := 3
                        searchType := .vector } }).response.products = [⟨1⟩, ⟨2⟩, ⟨3⟩]
    ∧ (callAgentModel O0 ("iya".toList)
        { intent := .unknown, search_query := none, filters := none
          language := .en, faq_topic := none }
        { initState with
            lastIntent := some .search
            search := { query := "sofa".toList, baseQuery := "sofa".toList
                        results := [⟨1⟩, ⟨2⟩, ⟨3⟩], resultCount := 3
                        searchType := .vector } }).searchInvoked = false :=
  ⟨by decide,
    ((C4_followUp_resolution.2 O0 ("iya".toList)
        { intent := .unknown, search_query := none, filters := none
          language := .en, faq_topic := none }
        { initState with
            lastIntent := some .search
            search := { query := "sofa".toList, baseQuery := "sofa".toList
                        results := [⟨1⟩, ⟨2⟩, ⟨3⟩], resultCount := 3
                        searchType := .vector } }
        (by decide) (by decide) (by decide) (by decide) (by decide) (by decide)
        (by decide)).2.1).trans (by decide),
    (C4_followUp_resolution.2 O0 ("iya".toList)
        { intent := .unknown, search_query := none, filters := none
          language := .en, faq_topic := none }
        { initState with
            lastIntent := some .search
            search := { query := "sofa".toList, baseQuery := "sofa".toList
                        results := [⟨1⟩, ⟨2⟩, ⟨3⟩], resultCount := 3
                        searchType := .vector } }
        (by decide) (by decide) (by decide) (by decide) (by decide) (by decide)
        (by decide)).2.2⟩

lemma getF_empty (k : FKey) : getF emptyFilters k = none := by
  cases k <;> rfl

lemma getF_setFilter (st : ConvState) (fs : FilterSet) (k : FKey) :
    getF (applyCmd st (.SET_FILTER fs)).filters k =
      if k = fsKey fs then some (fsVal fs) else getF st.filters k := by
  cases fs <;> cases k <;> simp [applyCmd, getF, fsKey, fsVal]

lemma getF_setIfStr_skip (st : ConvState) (v : Option Str) (mk : Str → FilterSet) (k : FKey)
    (h : ∀ x, fsKey (mk x) ≠ k) :
    getF (setIfStr st v mk).filters k = getF st.filters k := by
  cases v with
  | none => rfl
  | some x =>
    cases hx : x.isEmpty with
    | true => simp [setIfStr, hx]
    | false =>
      simp only [setIfStr, hx, Bool.false_eq_true, if_false]
      rw [getF_setFilter, if_neg (fun hkk => h x hkk.symm)]

lemma getF_setIfNat_skip (st : ConvState) (v : Option Nat) (mk : Nat → FilterSet) (k : FKey)
    (h : ∀ x, fsKey (mk x) ≠ k) :
    getF (setIfNat st v mk).filters k = getF st.filters k := by
  cases v with
  | none => rfl
  | some x =>
    by_cases hx : x = 0
    · simp [setIfNat, hx]
    · simp only [setIfNat, hx, if_false]
      rw [getF_setFilter, if_neg (fun hkk => h x hkk.symm)]

lemma getF_setIfStr_hit (st : ConvState) (v : Option Str) (mk : Str → FilterSet) (k : FKey)
    (hkey : ∀ x, fsKey (mk x) = k) (hval : ∀ x : Str, fsVal (mk x) = Sum.inl x) :
    getF (setIfStr st v mk).filters k =
      (match v with
       | some x => if x.isEmpty then getF st.filters k else some (Sum.inl x)
       | none => getF st.filters k) := by
  cases v with
  | none => rfl
  | some x =>
    cases hx : x.isEmpty with
    | true => simp [setIfStr, hx]
    | false => simp [setIfStr, hx, getF_setFilter, hkey, hval]

lemma getF_setIfNat_hit (st : ConvState) (v : Option Nat) (mk : Nat → FilterSet) (k : FKey)
    (hkey : ∀ x, fsKey (mk x) = k) (hval : ∀ x : Nat, fsVal (mk x) = Sum.inr x) :
    getF (setIfNat st v mk).filters k =
      (match v with
       | some x => if x = 0 then getF st.filters k else some (Sum.inr x)
       | none => getF st.filters k) := by
  cases v with
  | none => rfl
  | some x =>
    by_cases hx : x = 0
    · simp [setIfNat, hx]
    · simp [setIfNat, hx, getF_setFilter, hkey, hval]

/-- C6: each filter-merge step writes exactly the truthy filter keys the
intent provides and leaves every other key of the map as it was, so keys are
only added or overwritten, never removed; except that a filter_clear intent
wipes the prior map, making the outcome independent of the accumulated
filters (only this turn's own keys can be present afterwards). -/
theorem C6_filter_merge_monotone (intent : Intent) (st : ConvState) (k : FKey) :
    getF (filterMergeStep intent st).filters k =
      (match intentFVal intent k with
       | some v => some v
       | none => if intent.intent = .filter_clear then none else getF st.filters k) := by
  have hbase : ∀ k2 : FKey,
      getF (if intent.intent = .filter_clear then applyCmd st .CLEAR_FILTERS else st).filters k2
        = (if intent.intent = .filter_clear then none else getF st.filters k2) := by
    intro k2
    by_cases hcl : intent.intent = .filter_clear <;> simp [hcl, applyCmd, getF_empty]
  unfold filterMergeStep
  cases hf : intent.filters with
  | none => simp [intentFVal, hf, hbase k]
  | some f =>
    cases k with
    | category =>
      rw [getF_setIfNat_skip _ _ _ _
          ((by intro x; simp [ fsKey]) : ∀ x : Nat, fsKey (FilterSet.pmax x) ≠ FKey.category)]
      rw [getF_setIfNat_skip _ _ _ _
          ((by intro x; simp [ fsKey]) : ∀ x : Nat, fsKey (FilterSet.pmin x) ≠ FKey.category)]
      rw [getF_setIfStr_skip _ _ _ _
          ((by intro x; simp [ fsKey]) : ∀ x : Str, fsKey (FilterSet.brd x) ≠ FKey.category)]
      rw [getF_setIfStr_skip _ _ _ _
          ((by intro x; simp [ fsKey]) : ∀ x : Str, fsKey (FilterSet.mat x) ≠ FKey.category)]
      rw [getF_setIfStr_skip _ _ _ _
          ((by intro x; simp [ fsKey]) : ∀ x : Str, fsKey (FilterSet.col x) ≠ FKey.category)]
      rw [getF_setIfStr_hit _ _ _ _
          ((by intro x; rfl) : ∀ x : Str, fsKey (FilterSet.cat x) = FKey.category)
          ((by intro x; rfl) : ∀ x : Str, fsVal (FilterSet.cat x) = Sum.inl x)]
      cases hc : f.category with
      | none => simp [intentFVal, hf, hc, hbase]
      | some x => cases hx : x.isEmpty <;> simp [intentFVal, hf, hc, hx, hbase]
    | color =>
      rw [getF_setIfNat_skip _ _ _ _
          ((by intro x; simp [ fsKey]) : ∀ x : Nat, fsKey (FilterSet.pmax x) ≠ FKey.color)]
      rw [getF_setIfNat_skip _ _ _ _
          ((by intro x; simp [ fsKey]) : ∀ x : Nat, fsKey (FilterSet.pmin x) ≠ FKey.color)]
      rw [getF_setIfStr_skip _ _ _ _
          ((by intro x; simp [ fsKey]) : ∀ x : Str, fsKey (FilterSet.brd x) ≠ FKey.color)]
      rw [getF_setIfStr_skip _ _ _ _
          ((by intro x; simp [ fsKey]) : ∀ x : Str, fsKey (FilterSet.mat x) ≠ FKey.color)]
      rw [getF_setIfStr_hit _ _ _ _
          ((by intro x; rfl) : ∀ x : Str, fsKey (FilterSet.col x) = FKey.color)
          ((by intro x; rfl) : ∀ x : Str, fsVal (FilterSet.col x) = Sum.inl x)]
      rw [getF_setIfStr_skip _ _ _ _
          ((by intro x; simp [ fsKey]) : ∀ x : Str, fsKey (FilterSet.cat x) ≠ FKey.color)]
      cases hc : f.color with
      | none => simp [intentFVal, hf, hc, hbase]
      | some x => cases hx : x.isEmpty <;> simp [intentFVal, hf, hc, hx, hbase]
    | material =>
      rw [getF_setIfNat_skip _ _ _ _
          ((by intro x; simp [ fsKey]) : ∀ x : Nat, fsKey (FilterSet.pmax x) ≠ FKey.material)]
      rw [getF_setIfNat_skip _ _ _ _
          ((by intro x; simp [ fsKey]) : ∀ x : Nat, fsKey (FilterSet.pmin x) ≠ FKey.material)]
      rw [getF_setIfStr_skip _ _ _ _
          ((by intro x; simp [ fsKey]) : ∀ x : Str, fsKey (FilterSet.brd x) ≠ FKey.material)]
      rw [getF_setIfStr_hit _ _ _ _
          ((by intro x; rfl) : ∀ x : Str, fsKey (FilterSet.mat x) = FKey.material)
          ((by intro x; rfl) : ∀ x : Str, fsVal (FilterSet.mat x) = Sum.inl x)]
      rw [getF_setIfStr_skip _ _ _ _
          ((by intro x; simp [ fsKey]) : ∀ x : Str, fsKey (FilterSet.col x) ≠ FKey.material)]
      rw [getF_setIfStr_skip _ _ _ _
          ((by intro x; simp [ fsKey]) : ∀ x : Str, fsKey (FilterSet.cat x) ≠ FKey.material)]
      cases hc : f.material with
      | none => simp [intentFVal, hf, hc, hbase]
      | some x => cases hx : x.isEmpty <;> simp [intentFVal, hf, hc, hx, hbase]
    | brand =>
      rw [getF_setIfNat_skip _ _ _ _
          ((by intro x; simp [ fsKey]) : ∀ x : Nat, fsKey (FilterSet.pmax x) ≠ FKey.brand)]
      rw [getF_setIfNat_skip _ _ _ _
          ((by intro x; simp [ fsKey]) : ∀ x : Nat, fsKey (FilterSet.pmin x) ≠ FKey.brand)]
      rw [getF_setIfStr_hit _ _ _ _
          ((by intro x; rfl) : ∀ x : Str, fsKey (FilterSet.brd x) = FKey.brand)
          ((by intro x; rfl) : ∀ x : Str, fsVal (FilterSet.brd x) = Sum.inl x)]
      rw [getF_setIfStr_skip _ _ _ _
          ((by intro x; simp [ fsKey]) : ∀ x : Str, fsKey (FilterSet.mat x) ≠ FKey.brand)]
      rw [getF_setIfStr_skip _ _ _ _
          ((by intro x; simp [ fsKey]) : ∀ x : Str, fsKey (FilterSet.col x) ≠ FKey.brand)]
      rw [getF_setIfStr_skip _ _ _ _
          ((by intro x; simp [ fsKey]) : ∀ x : Str, fsKey (FilterSet.cat x) ≠ FKey.brand)]
      cases hc : f.brand with
      | none => simp [intentFVal, hf, hc, hbase]
      | some x => cases hx : x.isEmpty <;> simp [intentFVal, hf, hc, hx, hbase]
    | priceMin =>
      rw [getF_setIfNat_skip _ _ _ _
          ((by intro x; simp [ fsKey]) : ∀ x : Nat, fsKey (FilterSet.pmax x) ≠ FKey.priceMin)]
      rw [getF_setIfNat_hit _ _ _ _
          ((by intro x; rfl) : ∀ x : Nat, fsKey (FilterSet.pmin x) = FKey.priceMin)
          ((by intro x; rfl) : ∀ x : Nat, fsVal (FilterSet.pmin x) = Sum.inr x)]
      rw [getF_setIfStr_skip _ _ _ _
          ((by intro x; simp [ fsKey]) : ∀ x : Str, fsKey (FilterSet.brd x) ≠ FKey.priceMin)]
      rw [getF_setIfStr_skip _ _ _ _
          ((by intro x; simp [ fsKey]) : ∀ x : Str, fsKey (FilterSet.mat x) ≠ FKey.priceMin)]
      rw [getF_setIfStr_skip _ _ _ _
          ((by intro x; simp [ fsKey]) : ∀ x : Str, fsKey (FilterSet.col x) ≠ FKey.priceMin)]
      rw [getF_setIfStr_skip _ _ _ _
          ((by intro x; simp [ fsKey]) : ∀ x : Str, fsKey (FilterSet.cat x) ≠ FKey.priceMin)]
      cases hc : f.price_min with
      | none => simp [intentFVal, hf, hc, hbase]
      | some x => by_cases hx : x = 0 <;> simp [intentFVal, hf, hc, hx, hbase]
    | priceMax =>
      rw [getF_setIfNat_hit _ _ _ _
          ((by intro x; rfl) : ∀ x : Nat, fsKey (FilterSet.pmax x) = FKey.priceMax)
          ((by intro x; rfl) : ∀ x : Nat, fsVal (FilterSet.pmax x) = Sum.inr x)]
      rw [getF_setIfNat_skip _ _ _ _
          ((by intro x; simp [ fsKey]) : ∀ x : Nat, fsKey (FilterSet.pmin x) ≠ FKey.priceMax)]
      rw [getF_setIfStr_skip _ _ _ _
          ((by intro x; simp [ fsKey]) : ∀ x : Str, fsKey (FilterSet.brd x) ≠ FKey.priceMax)]
      rw [getF_setIfStr_skip _ _ _ _
          ((by intro x; simp [ fsKey]) : ∀ x : Str, fsKey (FilterSet.mat x) ≠ FKey.priceMax)]
      rw [getF_setIfStr_skip _ _ _ _
          ((by intro x; simp [ fsKey]) : ∀ x : Str, fsKey (FilterSet.col x) ≠ FKey.priceMax)]
      rw [getF_setIfStr_skip _ _ _ _
          ((by intro x; simp [ fsKey]) : ∀ x : Str, fsKey (FilterSet.cat x) ≠ FKey.priceMax)]
      cases hc : f.price_max with
      | none => simp [intentFVal, hf, hc, hbase]
      | some x => by_cases hx : x = 0 <;> simp [intentFVal, hf, hc, hx, hbase]

lemma catOpts_cons_none (l : List (Option Str)) : catOpts (none :: l) = catOpts l := by
  simp [catOpts]

lemma catOpts_triple_ne_nil (mc mm mp : Option Str)
    (h : mc.isSome ∨ mm.isSome ∨ mp.isSome) : catOpts [mc, mm, mp] ≠ [] := by
  rcases mc with _ | c <;> rcases mm with _ | m <;> rcases mp with _ | p <;>
    simp_all [catOpts]

lemma rbContinuation_eq_spec (baseL : Str) (mc mm mp : Option Str)
    (h : catOpts [mc, mm, mp] ≠ []) :
    rbContinuationQuery baseL mc mm mp = specTier1Query baseL mc mm mp := by
  unfold rbContinuationQuery specTier1Query specStripAttrTerms specStripLeadingFillers specNewAttrs
  rw [List.foldl_append, List.foldl_append, catOpts_cons_none,
    if_pos (List.length_pos.mpr h)]

/-- C1: a message carrying at least one color, material or price-descriptor
term, with a nonempty base query, no new-search trigger firing (neither an
explicit keyword nor a category term differing from the base query) and at
most two meaningful words, is reformulated to the lower-cased base query with
all known attribute terms and leading filler phrases stripped followed by
this turn's newly detected attributes in the fixed order category, color,
material, price joined by single spaces, with isContinuation true and
isNewSearch false. -/
theorem C1_tier1_continuation (userMessage : Str) (ctx : ReformCtx)
    (hattr : (colorsLex.find? (fun c => substr c (trimWs (lowerStr userMessage)))).isSome
        ∨ (materialsLex.find? (fun m => substr m (trimWs (lowerStr userMessage)))).isSome
        ∨ (priceRefsLex.find? (fun p => substr p (trimWs (lowerStr userMessage)))).isSome)
    (hbase : lowerStr ctx.baseQuery ≠ [])
    (hns : rbNewSearchKeywords.any (fun kw => isPre kw (trimWs (lowerStr userMessage))) = false)
    (hcount : ((splitWs (trimWs (lowerStr userMessage))).filter
        (fun w => !(fillerWords.contains w))).length ≤ 2)
    (hcat : ∀ cat, rbCategories.find? (fun c => substr c (trimWs (lowerStr userMessage))) = some cat
        → cat = lowerStr ctx.baseQuery) :
    ruleBasedReformulate userMessage ctx =
      some { query := specTier1Query (lowerStr ctx.baseQuery)
                (colorsLex.find? (fun c => substr c (trimWs (lowerStr userMessage))))
                (materialsLex.find? (fun m => substr m (trimWs (lowerStr userMessage))))
                (priceRefsLex.find? (fun p => substr p (trimWs (lowerStr userMessage))))
             isContinuation := true
             isNewSearch := false
             detectedAttributes := ⟨none,
                colorsLex.find? (fun c => substr c (trimWs (lowerStr userMessage))),
                materialsLex.find? (fun m => substr m (trimWs (lowerStr userMessage))),
                priceRefsLex.find? (fun p => substr p (trimWs (lowerStr userMessage)))⟩ } := by
  have hattrB : ((colorsLex.find? (fun c => substr c (trimWs (lowerStr userMessage)))).isSome
      || (materialsLex.find? (fun m => substr m (trimWs (lowerStr userMessage)))).isSome
      || (priceRefsLex.find? (fun p => substr p (trimWs (lowerStr userMessage)))).isSome) = true := by
    rcases hattr with h | h | h <;> simp [h]
  have hb : (lowerStr ctx.baseQuery).isEmpty = false := by
    cases h' : lowerStr ctx.baseQuery with
    | nil => exact absurd h' hbase
    | cons a l => rfl
  have key : rbAfterCategory userMessage (trimWs (lowerStr userMessage)) (lowerStr ctx.baseQuery)
      (rbNewSearchKeywords.any (fun kw => isPre kw (trimWs (lowerStr userMessage)))) =
      some { query := specTier1Query (lowerStr ctx.baseQuery)
                (colorsLex.find? (fun c => substr c (trimWs (lowerStr userMessage))))
                (materialsLex.find? (fun m => substr m (trimWs (lowerStr userMessage))))
                (priceRefsLex.find? (fun p => substr p (trimWs (lowerStr userMessage))))
             isContinuation := true
             isNewSearch := false
             detectedAttributes := ⟨none,
                colorsLex.find? (fun c => substr c (trimWs (lowerStr userMessage))),
                materialsLex.find? (fun m => substr m (trimWs (lowerStr userMessage))),
                priceRefsLex.find? (fun p => substr p (trimWs (lowerStr userMessage)))⟩ } := by
    simp only [rbAfterCategory, hns, hattrB, hb, Bool.not_false, Bool.and_true, Bool.true_and,
      Bool.not_true, Bool.and_false, if_true, decide_eq_true hcount, Bool.true_or, if_pos]
    exact congrArg some (by
      rw [rbContinuation_eq_spec _ _ _ _ (catOpts_triple_ne_nil _ _ _ hattr)])
  unfold ruleBasedReformulate
  cases hfind : rbCategories.find? (fun c => substr c (trimWs (lowerStr userMessage))) with
  | none => simpa only [hfind] using key
  | some cat =>
    have hceq : cat = lowerStr ctx.baseQuery := hcat cat hfind
    simp only [hfind]
    rw [if_neg (fun hne => hne hceq)]
    exact key

theorem C1_tier1_continuation_witness :
    (colorsLex.find? (fun c => substr c (trimWs (lowerStr ("putih".toList))))).isSome
    ∧ lowerStr (("sofa".toList : Str)) ≠ []
    ∧ ruleBasedReformulate ("putih".toList)
        { baseQuery := "sofa".toList, lastSearchQuery := none
          activeFilters := emptyFilters, language := .en } =
      some { query := "sofa putih".toList, isContinuation := true, isNewSearch := false
             detectedAttributes := ⟨none, some ("putih".toList), none, none⟩ } :=
  ⟨by decide, by decide,
    (C1_tier1_continuation ("putih".toList)
      { baseQuery := "sofa".toList, lastSearchQuery := none
        activeFilters := emptyFilters, language := .en }
      (Or.inl (by decide)) (by decide) (by decide) (by decide)
      (fun cat h => by
        rw [show rbCategories.find? (fun c => substr c (trimWs (lowerStr ("putih".toList))))
            = (none : Option Str) from by decide] at h
        cases h)).trans (by decide)⟩
